import Mathlib

/-!
# WOD-wise AI-request gateway: a shallow embedding

This file embeds the AI-request gateway of the WOD-wise repository
(`supabase/functions/claude-proxy/index.ts`), its quota policy and usage
ledger, and the client resilience wrapper (`lib/retry.ts` and the client
API module), and proves the specification's claims about them.

External platform pieces are modelled as follows:
* `JSON.parse` is modelled by `jsonParse`, a parser for the JSON fragment
  the gateway exchanges (null, booleans, integer numbers, strings with the
  common escapes, arrays, objects); like the platform function it rejects
  trailing non-whitespace after the value.  The engine-specific
  `SyntaxError` message is modelled by the fixed string `jsonSyntaxError`.
* the regex match `response.match(/\{[\s\S]*\}/)` is modelled by
  `extractJsonSpan` (the greedy match runs from the first `{` to the last
  `}` of the text, provided the former precedes the latter).
* the model backend (`callClaude`) and the stores read by the gateway are
  supplied through an explicit environment `ServeEnv`.
-/

/-- JSON values, as produced by the modelled `JSON.parse`.  Numbers are
restricted to integers (the payloads relevant here use none other). -/
inductive JVal where
  | jnull : JVal
  | jbool : Bool → JVal
  | jnum : Int → JVal
  | jstr : String → JVal
  | jarr : List JVal → JVal
  | jobj : List (String × JVal) → JVal

/-- Skip JSON whitespace. -/
def skipWs : List Char → List Char
  | c :: cs => if c = ' ' ∨ c = '\n' ∨ c = '\t' ∨ c = '\r' then skipWs cs else c :: cs
  | [] => []

/-- The character denoted by a JSON escape `\c`, when `c` is one of the
escapes the modelled fragment accepts. -/
def escapeChar (c : Char) : Option Char :=
  if c = '"' then some '"'
  else if c = '\\' then some '\\'
  else if c = '/' then some '/'
  else if c = 'n' then some '\n'
  else if c = 't' then some '\t'
  else if c = 'r' then some '\r'
  else none

/-- Parse the body of a JSON string literal (the opening quote already
consumed); returns the decoded characters and the remaining input. -/
def parseStringChars : List Char → Option (List Char × List Char)
  | '"' :: rest => some ([], rest)
  | '\\' :: c :: rest =>
      match escapeChar c with
      | some e => (parseStringChars rest).map (fun p => (e :: p.1, p.2))
      | none => none
  | c :: rest =>
      if c = '\\' then none
      else (parseStringChars rest).map (fun p => (c :: p.1, p.2))
  | [] => none

/-- The natural number denoted by a list of decimal digits. -/
def digitsToNat (ds : List Char) : Nat :=
  ds.foldl (fun a c => a * 10 + (c.toNat - 48)) 0

/-- Parse a JSON integer literal. -/
def parseNum (cs : List Char) : Option (JVal × List Char) :=
  let signed : Bool × List Char := match cs with
    | '-' :: r => (true, r)
    | _ => (false, cs)
  let ds := signed.2.takeWhile (·.isDigit)
  let rest := signed.2.dropWhile (·.isDigit)
  if ds.isEmpty then none
  else some (.jnum (if signed.1 then -(digitsToNat ds : Int) else (digitsToNat ds : Int)), rest)

/-- A pending parsing task: a value, the rest of an object's members, or
the rest of an array's elements. -/
inductive PTask where
  | val (cs : List Char)
  | objRest (cs : List Char) (acc : List (String × JVal))
  | arrRest (cs : List Char) (acc : List JVal)

/-- The recursive JSON parser, fuel-indexed (any fuel beyond the input
length is enough); structural recursion on the fuel so that concrete runs
reduce definitionally. -/
def parseGo : Nat → PTask → Option (JVal × List Char)
  | 0, _ => none
  | fuel + 1, .val cs =>
    match skipWs cs with
    | '{' :: rest =>
        (match skipWs rest with
         | '}' :: r => some (.jobj [], r)
         | r => parseGo fuel (.objRest r []))
    | '[' :: rest =>
        (match skipWs rest with
         | ']' :: r => some (.jarr [], r)
         | r => parseGo fuel (.arrRest r []))
    | '"' :: rest => (parseStringChars rest).map (fun p => (.jstr ⟨p.1⟩, p.2))
    | 't' :: 'r' :: 'u' :: 'e' :: rest => some (.jbool true, rest)
    | 'f' :: 'a' :: 'l' :: 's' :: 'e' :: rest => some (.jbool false, rest)
    | 'n' :: 'u' :: 'l' :: 'l' :: rest => some (.jnull, rest)
    | other => parseNum other
  | fuel + 1, .objRest cs acc =>
    match skipWs cs with
    | '"' :: rest =>
        (match parseStringChars rest with
         | none => none
         | some (key, afterKey) =>
           match skipWs afterKey with
           | ':' :: afterColon =>
               (match parseGo fuel (.val afterColon) with
                | none => none
                | some (v, afterVal) =>
                  match skipWs afterVal with
                  | ',' :: r => parseGo fuel (.objRest r (acc ++ [(⟨key⟩, v)]))
                  | '}' :: r => some (.jobj (acc ++ [(⟨key⟩, v)]), r)
                  | _ => none)
           | _ => none)
    | _ => none
  | fuel + 1, .arrRest cs acc =>
    match parseGo fuel (.val cs) with
    | none => none
    | some (v, afterVal) =>
      match skipWs afterVal with
      | ',' :: r => parseGo fuel (.arrRest r (acc ++ [v]))
      | ']' :: r => some (.jarr (acc ++ [v]), r)
      | _ => none

/-- Model of the platform `JSON.parse`: parses one JSON value and rejects
trailing non-whitespace, returning `none` where the platform throws. -/
def jsonParse (s : String) : Option JVal :=
  match parseGo (s.length + 2) (.val s.toList) with
  | some (v, rest) => if (skipWs rest).isEmpty then some v else none
  | none => none

/-- Index of the last occurrence of `c`, if any. -/
def lastIdxOf (c : Char) (cs : List Char) : Option Nat :=
  (cs.reverse.findIdx? (· = c)).map (fun k => cs.length - 1 - k)

/-- Embedding of `response.match(/\{[\s\S]*\}/)`: the greedy, unanchored
match runs from the first `{` of the text to the last `}`, and exists
exactly when the former precedes the latter. -/
def extractJsonSpan (s : String) : Option String :=
  let cs := s.toList
  match cs.findIdx? (· = '{'), lastIdxOf '}' cs with
  | some i, some j => if i < j then some ⟨(cs.drop i).take (j - i + 1)⟩ else none
  | _, _ => none

/-! ## The gateway (`supabase/functions/claude-proxy/index.ts`) -/

def FREE_TIER_DAILY_LIMIT : Nat := 5
def PRO_TIER_DAILY_LIMIT : Nat := 100

/-- `profile?.subscription_tier || "free"`: the stored tier with the
falsy values (absent row, absent column, empty string) replaced by
`"free"`. -/
def effectiveTier (subscriptionTier : Option String) : String :=
  match subscriptionTier with
  | none => "free"
  | some t => if t.isEmpty then "free" else t

/-- `tier === "pro" ? PRO_TIER_DAILY_LIMIT : FREE_TIER_DAILY_LIMIT`. -/
def dailyLimitOf (subscriptionTier : Option String) : Nat :=
  if effectiveTier subscriptionTier = "pro" then PRO_TIER_DAILY_LIMIT
  else FREE_TIER_DAILY_LIMIT

structure RateLimitResult where
  allowed : Bool
  remaining : Nat

/-- `checkRateLimit`: reads the user's tier and today's usage count and
decides admission.  `usage?.request_count || 0` is the count with an
absent row read as `0`; `Math.max(0, dailyLimit - currentCount)` is
truncated subtraction on `Nat`. -/
def checkRateLimit (subscriptionTier : Option String) (requestCount : Option Nat) :
    RateLimitResult :=
  let dailyLimit := dailyLimitOf subscriptionTier
  let currentCount := requestCount.getD 0
  { allowed := currentCount < dailyLimit
    remaining := dailyLimit - currentCount }

/-- The request body `ClaudeRequest`.  `workout` and `userProfile` arrive
already decoded from the request JSON, hence as `JVal`s. -/
structure ClaudeRequest where
  action : String
  imageBase64 : Option String := none
  mimeType : Option String := none
  workout : Option JVal := none
  userProfile : Option JVal := none

/-- JavaScript truthiness of an optional string field (`!body.imageBase64`
is true when the field is absent or the empty string). -/
def truthyS (o : Option String) : Bool :=
  match o with
  | none => false
  | some s => !s.isEmpty

/-- JavaScript truthiness of a decoded JSON field (`!body.workout`). -/
def truthyJ (o : Option JVal) : Bool :=
  match o with
  | none => false
  | some .jnull => false
  | some (.jbool b) => b
  | some (.jnum n) => n != 0
  | some (.jstr s) => !s.isEmpty
  | some (.jarr _) => true
  | some (.jobj _) => true

/-- `body.mimeType || "image/png"`. -/
def effectiveMimeType (mimeType : Option String) : String :=
  match mimeType with
  | none => "image/png"
  | some m => if m.isEmpty then "image/png" else m

/-- The engine-specific message of the `SyntaxError` thrown by
`JSON.parse`, modelled as a fixed string. -/
def jsonSyntaxError : String := "Unexpected token in JSON"

/-- The shared tail of `parseWodImage` and `generateStrategy`: match the
model text against `/\{[\s\S]*\}/`, throw `"No JSON found in response"`
when there is no match, otherwise `JSON.parse` the match. -/
def parseModelResponse (response : String) : Except String JVal :=
  match extractJsonSpan response with
  | none => .error "No JSON found in response"
  | some span =>
    match jsonParse span with
    | some v => .ok v
    | none => .error jsonSyntaxError

/-- The environment of one gateway invocation: the auth outcome, the rows
the two store reads return, and the model backend (`callClaude`) as a
function of the prompt inputs — `claudeVision (mimeType, imageBase64)` for
`parse_wod` and `claudeText (workout, userProfile)` for
`generate_strategy`, each returning the model text or a thrown error. -/
structure ServeEnv where
  hasAuthHeader : Bool
  tokenValid : Bool
  subscriptionTier : Option String
  requestCount : Option Nat
  claudeVision : String → String → Except String String
  claudeText : JVal → Option JVal → Except String String

/-- `parseWodImage` as invoked by the gateway: call the backend with the
image payload, then parse its text. -/
def parseWodImage (env : ServeEnv) (mimeType imageBase64 : String) : Except String JVal :=
  (env.claudeVision mimeType imageBase64).bind parseModelResponse

/-- `generateStrategy` as invoked by the gateway. -/
def generateStrategy (env : ServeEnv) (workout : JVal) (userProfile : Option JVal) :
    Except String JVal :=
  (env.claudeText workout userProfile).bind parseModelResponse

/-- The `action` dispatch of the handler: validate the action-specific
fields, then run the model call and response parsing; any thrown error is
the `Except.error` branch. -/
def dispatchRequest (env : ServeEnv) (body : ClaudeRequest) : Except String JVal :=
  if body.action = "parse_wod" then
    if !truthyS body.imageBase64 then .error "Missing imageBase64"
    else parseWodImage env (effectiveMimeType body.mimeType) (body.imageBase64.getD "")
  else if body.action = "generate_strategy" then
    if !truthyJ body.workout then .error "Missing workout data"
    else generateStrategy env (body.workout.getD .jnull) body.userProfile
  else .error "Invalid action"

/-- A gateway HTTP response: status plus the JSON body fields actually
emitted (`error`/`message`/`remaining` for failures, `data`/`remaining`
for success). -/
inductive GatewayResponse where
  | errorResp (status : Nat) (error : String) (message : Option String)
      (remaining : Option Nat)
  | success (data : JVal) (remaining : Nat)

def upgradeMessage : String :=
  "You\u0027ve used all your daily WOD analyses. Upgrade to Pro for more!"

/-- The request handler (`serve`): verify auth, check the rate limit,
dispatch, increment usage only after a successful call.  Returns the
response together with the user's usage count after the request (the
count before is `env.requestCount.getD 0`). -/
def serve (env : ServeEnv) (body : ClaudeRequest) : GatewayResponse × Nat :=
  let count := env.requestCount.getD 0
  if !env.hasAuthHeader then
    (.errorResp 401 "Missing authorization header" none none, count)
  else if !env.tokenValid then
    (.errorResp 401 "Invalid or expired token" none none, count)
  else
    let rl := checkRateLimit env.subscriptionTier env.requestCount
    if !rl.allowed then
      (.errorResp 429 "Daily limit reached" (some upgradeMessage) (some 0), count)
    else
      match dispatchRequest env body with
      | .error e => (.errorResp 500 e none none, count)
      | .ok v => (.success v (rl.remaining - 1), count + 1)

/-! ## The client resilience wrapper (`lib/retry.ts`) -/

/-- The errors a client attempt can throw: a `RetryableError` (with its
`statusCode` and `isRetryable` fields), a `TimeoutError`, or a plain
`Error` (e.g. a network failure from `fetch`). -/
inductive CallError where
  | retryable (message : String) (statusCode : Option Nat) (isRetryable : Bool)
  | timeout (message : String)
  | plain (message : String)
  deriving DecidableEq

/-- `error instanceof RetryableError ? error.isRetryable : true`. -/
def errIsRetryable (e : CallError) : Bool :=
  match e with
  | .retryable _ _ b => b
  | _ => true

/-- `error instanceof RetryableError ? error.statusCode : undefined`. -/
def errStatusCode (e : CallError) : Option Nat :=
  match e with
  | .retryable _ c _ => c
  | _ => none

/-- `RetryOptions`.  Delays are exact rationals. -/
structure RetryOptions where
  maxRetries : Nat
  initialDelayMs : ℚ
  maxDelayMs : ℚ
  backoffMultiplier : ℚ
  retryableStatuses : List Nat

def DEFAULT_OPTIONS : RetryOptions :=
  { maxRetries := 3
    initialDelayMs := 1000
    maxDelayMs := 10000
    backoffMultiplier := 2
    retryableStatuses := [408, 429, 500, 502, 503, 504] }

/-- `calculateDelay`: exponential backoff with uniform jitter, capped at
`maxDelayMs`.  `rand` is the `Math.random()` draw. -/
def calculateDelay (attempt : Nat) (opts : RetryOptions) (rand : ℚ) : ℚ :=
  let delay := opts.initialDelayMs * opts.backoffMultiplier ^ attempt
  let jitter := rand * (3 / 10) * delay
  min (delay + jitter) opts.maxDelayMs

/-- The status-code part of the retry decision:
`!statusCode || opts.retryableStatuses.includes(statusCode)` — note that
in JavaScript `!statusCode` is also true for a status code of `0`. -/
def statusAllowsRetry (opts : RetryOptions) (statusCode : Option Nat) : Bool :=
  match statusCode with
  | none => true
  | some c => c = 0 || opts.retryableStatuses.contains c

/-- The `shouldRetry` condition of `withRetry`'s catch block. -/
def shouldRetry (opts : RetryOptions) (attempt : Nat) (e : CallError) : Bool :=
  decide (attempt < opts.maxRetries) && errIsRetryable e
    && statusAllowsRetry opts (errStatusCode e)

/-- The `for` loop of `withRetry`, instrumented with the number of times
`fn` has been invoked.  `fn attempt` is what the `attempt`-th invocation
(0-indexed) returns or throws; the fuel is `maxRetries + 1 - attempt`, so
the `0` case is unreachable from `withRetry`. -/
def withRetryGo {T : Type} (fn : Nat → Except CallError T) (opts : RetryOptions) :
    Nat → Nat → Except CallError T × Nat
  | _, 0 => (.error (.plain "Unknown error"), 0)
  | attempt, fuel + 1 =>
    match fn attempt with
    | .ok v => (.ok v, attempt + 1)
    | .error e =>
      if shouldRetry opts attempt e then withRetryGo fn opts (attempt + 1) fuel
      else (.error e, attempt + 1)

/-- `withRetry fn opts` returns the final outcome (the returned value or
the thrown `lastError`) together with the number of times `fn` ran. -/
def withRetry {T : Type} (fn : Nat → Except CallError T) (opts : RetryOptions) :
    Except CallError T × Nat :=
  withRetryGo fn opts 0 (opts.maxRetries + 1)

/-! ## The client API module (`lib/claude.ts`, `callEdgeFunction`) -/

/-- How `callEdgeFunction`'s attempt body converts the gateway's HTTP
response into a value or a thrown error: a non-ok response with status 429
throws `RetryableError(result.message || <upgrade fallback>, 429, false)`;
any other non-ok response throws
`RetryableError(result.error || 'API request failed', status, true)`. -/
def classifyEdgeResponse (r : GatewayResponse) : Except CallError JVal :=
  match r with
  | .success v _ => .ok v
  | .errorResp status e m _ =>
    if status = 429 then
      .error (.retryable
        (match m with
         | some s => if s.isEmpty then "Daily limit reached. Upgrade to Pro for more analyses!" else s
         | none => "Daily limit reached. Upgrade to Pro for more analyses!")
        (some 429) false)
    else
      .error (.retryable (if e.isEmpty then "API request failed" else e) (some status) true)

/-- The options `callEdgeFunction` passes to `withRetry`:
`{ ...DEFAULT_OPTIONS, maxRetries: 2 }`. -/
def clientRetryOptions : RetryOptions :=
  { DEFAULT_OPTIONS with maxRetries := 2 }

/-- `callEdgeFunction`'s retry loop over gateway responses:
`attemptResponse n` is the gateway response the `n`-th attempt receives. -/
def callEdgeFunction (attemptResponse : Nat → GatewayResponse) :
    Except CallError JVal × Nat :=
  withRetry (fun a => classifyEdgeResponse (attemptResponse a)) clientRetryOptions

/-- The `mimeType` argument the client's `parseWodImage` forwards: the
declared default parameter is `'image/png'`. -/
def clientParseWodMime (mimeType : Option String) : String :=
  mimeType.getD "image/png"

/-! ## Auxiliary predicates and the spec-side span extractor -/

/-- Whether a gateway response is the 200 success shape. -/
def isSuccessResp (r : GatewayResponse) : Bool :=
  match r with
  | .success _ _ => true
  | .errorResp _ _ _ _ => false

/-- The attempt-independent part of `shouldRetry`: whether `withRetry`
keeps retrying an error while attempts remain. -/
def retriesOn (opts : RetryOptions) (e : CallError) : Bool :=
  errIsRetryable e && statusAllowsRetry opts (errStatusCode e)

/-- Brace-depth scan returning the prefix up to and including the brace
closing the span opened by the first character. -/
def scanToClose : List Char → Nat → List Char → Option (List Char)
  | [], _, _ => none
  | c :: rest, depth, acc =>
    if c = '{' then scanToClose rest (depth + 1) (c :: acc)
    else if c = '}' then
      if depth = 1 then some (c :: acc).reverse
      else scanToClose rest (depth - 1) (c :: acc)
    else scanToClose rest depth (c :: acc)

/-- Modelled from the spec: the FIRST TOP-LEVEL `{...}` span of a text —
the balanced-brace span opened by the first `{`.  This follows the spec's
words, for comparison with the source's greedy regex `extractJsonSpan`. -/
def firstTopLevelJsonSpan (s : String) : Option String :=
  match s.toList.dropWhile (· ≠ '{') with
  | [] => none
  | cs => (scanToClose cs 0 []).map (fun l => ⟨l⟩)

/-! ## Concrete scenario environments used by witnesses and
counterexamples -/

deriving instance DecidableEq for Except

/-- The gateway environment of the C3/C4 failure scenarios: a valid
session for a fresh free-tier user, with a model backend that answers the
vision prompt with prose containing no JSON object. -/
def proseEnv : ServeEnv :=
  { hasAuthHeader := true, tokenValid := true, subscriptionTier := none,
    requestCount := none,
    claudeVision := fun _ _ => .ok "The workout looks great, good luck!",
    claudeText := fun _ _ => .error "unused" }

def proseBody : ClaudeRequest :=
  { action := "parse_wod", imageBase64 := some "aW1hZ2U=" }

def strategyProse : String :=
  "Sure! Here is the strategy: \x7b\"pacing\":\"steady\"\x7d Hope that helps!"

def strategyEnv : ServeEnv :=
  { hasAuthHeader := true, tokenValid := true, subscriptionTier := none,
    requestCount := none,
    claudeVision := fun _ _ => .error "unused",
    claudeText := fun _ _ => .ok strategyProse }

def strategyBody : ClaudeRequest :=
  { action := "generate_strategy", workout := some (.jobj [("workoutType", .jstr "AMRAP")]) }

def twoObjProse : String := "pre \x7b\"a\":1\x7d mid \x7b\"b\":2\x7d"

def twoObjEnv : ServeEnv :=
  { hasAuthHeader := true, tokenValid := true, subscriptionTier := none,
    requestCount := none,
    claudeVision := fun _ _ => .error "unused",
    claudeText := fun _ _ => .ok twoObjProse }

def emptyObjEnv : ServeEnv :=
  { hasAuthHeader := true, tokenValid := true, subscriptionTier := none,
    requestCount := none,
    claudeVision := fun _ _ => .ok "\x7b\x7d",
    claudeText := fun _ _ => .error "unused" }

def mimelessBody : ClaudeRequest :=
  { action := "parse_wod", imageBase64 := some "aW1hZ2U=" }

def pngEnv : ServeEnv :=
  { hasAuthHeader := true, tokenValid := true, subscriptionTier := none,
    requestCount := none,
    claudeVision := fun mime _ => if mime = "image/png" then .ok "\x7b\x7d" else .error "bad mime",
    claudeText := fun _ _ => .error "unused" }


/-! ## Claims -/

/-- C7: The effective daily ceiling is a total function of the stored tier
value: it is 100 when the tier equals `"pro"` and 5 for every other value,
including unset, unreadable, or unknown tiers. -/
theorem dailyLimit_total_of_tier (t : Option String) :
    (t = some "pro" → dailyLimitOf t = 100) ∧ (t ≠ some "pro" → dailyLimitOf t = 5) := by
  constructor
  · rintro rfl; rfl
  · intro h
    match t with
    | none => rfl
    | some s =>
      have hs : s ≠ "pro" := by
        intro hh
        exact h (by rw [hh])
      unfold dailyLimitOf effectiveTier
      by_cases he : s.isEmpty
      · simp [he, FREE_TIER_DAILY_LIMIT]
      · simp [he, hs, FREE_TIER_DAILY_LIMIT]

/-- Witness for C7 at the concrete tiers `"pro"`, `"gold"`, and unset. -/
theorem dailyLimit_total_of_tier_witness :
    dailyLimitOf (some "pro") = 100 ∧ dailyLimitOf (some "gold") = 5 ∧
      dailyLimitOf none = 5 :=
  ⟨(dailyLimit_total_of_tier (some "pro")).1 rfl,
   (dailyLimit_total_of_tier (some "gold")).2 (by decide),
   (dailyLimit_total_of_tier none).2 (by decide)⟩

/-- Any request whose usage count has reached the ceiling is answered with
the 429 quota response and leaves the counter unchanged, whatever the
backends would do. -/
theorem serve_quota_denied (env : ServeEnv) (body : ClaudeRequest)
    (hA : env.hasAuthHeader = true) (hT : env.tokenValid = true)
    (hQ : dailyLimitOf env.subscriptionTier ≤ env.requestCount.getD 0) :
    serve env body =
      (.errorResp 429 "Daily limit reached" (some upgradeMessage) (some 0),
       env.requestCount.getD 0) := by
  have hAl : (checkRateLimit env.subscriptionTier env.requestCount).allowed = false := by
    unfold checkRateLimit
    simp [Nat.not_lt.mpr hQ]
  unfold serve
  simp [hA, hT, hAl]

/-- C1: when today's usage count is at or above the ceiling for the user's
tier, the gateway responds with the QuotaExceeded error (HTTP 429)
carrying `remaining = 0` and the upgrade message, the usage counter is
unchanged, and the model backend is not invoked (the outcome is the same
for every backend). -/
theorem quota_exceeded_rejected_unchanged (env : ServeEnv) (body : ClaudeRequest)
    (hA : env.hasAuthHeader = true) (hT : env.tokenValid = true)
    (hQ : dailyLimitOf env.subscriptionTier ≤ env.requestCount.getD 0) :
    serve env body =
      (.errorResp 429 "Daily limit reached" (some upgradeMessage) (some 0),
       env.requestCount.getD 0) ∧
    ∀ f g, serve { env with claudeVision := f, claudeText := g } body = serve env body := by
  refine ⟨serve_quota_denied env body hA hT hQ, fun f g => ?_⟩
  rw [serve_quota_denied env body hA hT hQ,
    serve_quota_denied { env with claudeVision := f, claudeText := g } body hA hT hQ]

/-- Witness for C1: a free-tier user with 5 prior calls today is rejected
with 429, `remaining = 0`, and the count stays 5. -/
theorem quota_exceeded_rejected_unchanged_witness :
    serve
      { hasAuthHeader := true, tokenValid := true, subscriptionTier := none,
        requestCount := some 5,
        claudeVision := fun _ _ => .error "backend must not run",
        claudeText := fun _ _ => .error "backend must not run" }
      { action := "parse_wod", imageBase64 := some "aW1hZ2U=" } =
      (.errorResp 429 "Daily limit reached" (some upgradeMessage) (some 0), 5) :=
  (quota_exceeded_rejected_unchanged _ _ rfl rfl (by decide)).1

/-- C2: the usage counter is incremented exactly once on a request whose
model call returned and parsed successfully (the 200 response), and is
unchanged on every failed request — in particular on a
MalformedModelOutput failure — so a failed call costs the user nothing. -/
theorem usage_incremented_iff_success (env : ServeEnv) (body : ClaudeRequest) :
    (serve env body).2 =
      env.requestCount.getD 0 +
        (if isSuccessResp (serve env body).1 = true then 1 else 0) := by
  unfold serve
  cases hA : env.hasAuthHeader with
  | false => simp [isSuccessResp]
  | true =>
    cases hT : env.tokenValid with
    | false => simp [isSuccessResp]
    | true =>
      cases hAl : (checkRateLimit env.subscriptionTier env.requestCount).allowed with
      | false => simp [hAl, isSuccessResp]
      | true =>
        cases hd : dispatchRequest env body with
        | error e => simp [hAl, hd, isSuccessResp]
        | ok v => simp [hAl, hd, isSuccessResp]

/-- C6: every successful response carries
`remaining = ceiling - (count_before + 1)`. -/
theorem success_remaining_eq (env : ServeEnv) (body : ClaudeRequest)
    (v : JVal) (r : Nat) (h : (serve env body).1 = .success v r) :
    r = dailyLimitOf env.subscriptionTier - (env.requestCount.getD 0 + 1) := by
  unfold serve at h
  cases hA : env.hasAuthHeader with
  | false => rw [hA] at h; simp at h
  | true =>
    rw [hA] at h
    cases hT : env.tokenValid with
    | false => rw [hT] at h; simp at h
    | true =>
      rw [hT] at h
      simp only [Bool.not_true, Bool.false_eq_true, if_false] at h
      cases hAl : (checkRateLimit env.subscriptionTier env.requestCount).allowed with
      | false => simp [hAl] at h
      | true =>
        simp only [hAl, Bool.not_true, Bool.false_eq_true, if_false] at h
        cases hd : dispatchRequest env body with
        | error e => simp [hd] at h
        | ok w =>
          rw [hd] at h
          have hr : r = (checkRateLimit env.subscriptionTier env.requestCount).remaining - 1 := by
            cases h
            rfl
          rw [hr]
          unfold checkRateLimit
          simp [Nat.sub_sub]

/-- Witness for C6: a free-tier user with 4 prior successful calls today
whose 5th call succeeds receives `remaining = 0`. -/
theorem success_remaining_eq_witness :
    (serve
        { hasAuthHeader := true, tokenValid := true, subscriptionTier := none,
          requestCount := some 4,
          claudeVision := fun _ _ => .ok "\x7b\"workoutType\":\"AMRAP\"\x7d",
          claudeText := fun _ _ => .error "unused" }
        { action := "parse_wod", imageBase64 := some "aW1hZ2U=" }).1 =
      .success (.jobj [("workoutType", .jstr "AMRAP")]) 0 ∧
    (0 : Nat) = dailyLimitOf none - (4 + 1) :=
  ⟨rfl,
   success_remaining_eq
     { hasAuthHeader := true, tokenValid := true, subscriptionTier := none,
       requestCount := some 4,
       claudeVision := fun _ _ => .ok "\x7b\"workoutType\":\"AMRAP\"\x7d",
       claudeText := fun _ _ => .error "unused" }
     { action := "parse_wod", imageBase64 := some "aW1hZ2U=" }
     (.jobj [("workoutType", .jstr "AMRAP")]) 0 rfl⟩

/-- C9: for every attempt `n` and every jitter draw `rand` in `[0, 1]`,
the computed delay equals
`min (initialDelay * multiplier ^ n + jitter) maxDelay` with
`jitter = rand * 0.3 * (initialDelay * multiplier ^ n)` lying in
`[0, 0.3 * initialDelay * multiplier ^ n]`, hence the delay lies between
`initialDelay * multiplier ^ n` and `1.3 * initialDelay * multiplier ^ n`,
both capped at `maxDelay`. -/
theorem calculateDelay_bounds (opts : RetryOptions) (attempt : Nat) (rand : ℚ)
    (h0 : 0 ≤ rand) (h1 : rand ≤ 1)
    (hi : 0 ≤ opts.initialDelayMs) (hm : 0 ≤ opts.backoffMultiplier) :
    calculateDelay attempt opts rand =
      min (opts.initialDelayMs * opts.backoffMultiplier ^ attempt +
            rand * (3 / 10) * (opts.initialDelayMs * opts.backoffMultiplier ^ attempt))
        opts.maxDelayMs ∧
    0 ≤ rand * (3 / 10) * (opts.initialDelayMs * opts.backoffMultiplier ^ attempt) ∧
    rand * (3 / 10) * (opts.initialDelayMs * opts.backoffMultiplier ^ attempt) ≤
      (3 / 10) * (opts.initialDelayMs * opts.backoffMultiplier ^ attempt) ∧
    min (opts.initialDelayMs * opts.backoffMultiplier ^ attempt) opts.maxDelayMs ≤
      calculateDelay attempt opts rand ∧
    calculateDelay attempt opts rand ≤
      min ((13 / 10) * (opts.initialDelayMs * opts.backoffMultiplier ^ attempt))
        opts.maxDelayMs := by
  have hd : 0 ≤ opts.initialDelayMs * opts.backoffMultiplier ^ attempt :=
    mul_nonneg hi (pow_nonneg hm attempt)
  have hj0 : 0 ≤ rand * (3 / 10) * (opts.initialDelayMs * opts.backoffMultiplier ^ attempt) :=
    mul_nonneg (mul_nonneg h0 (by norm_num)) hd
  have hj1 : rand * (3 / 10) * (opts.initialDelayMs * opts.backoffMultiplier ^ attempt) ≤
      (3 / 10) * (opts.initialDelayMs * opts.backoffMultiplier ^ attempt) := by
    nlinarith
  refine ⟨rfl, hj0, hj1, ?_, ?_⟩
  · exact min_le_min (by linarith) le_rfl
  · refine le_min ?_ (min_le_right _ _)
    calc calculateDelay attempt opts rand ≤ _ := min_le_left _ _
    _ ≤ (13 / 10) * (opts.initialDelayMs * opts.backoffMultiplier ^ attempt) := by linarith

/-- Witness for C9 at attempt 1 with the default options and the jitter
draw `1/2`: the delay is 2300 ms, inside `[2000, 2600]`. -/
theorem calculateDelay_bounds_witness :
    calculateDelay 1 DEFAULT_OPTIONS (1 / 2) = 2300 ∧
    min (DEFAULT_OPTIONS.initialDelayMs * DEFAULT_OPTIONS.backoffMultiplier ^ 1)
        DEFAULT_OPTIONS.maxDelayMs ≤ calculateDelay 1 DEFAULT_OPTIONS (1 / 2) ∧
    calculateDelay 1 DEFAULT_OPTIONS (1 / 2) ≤
      min ((13 / 10) * (DEFAULT_OPTIONS.initialDelayMs * DEFAULT_OPTIONS.backoffMultiplier ^ 1))
        DEFAULT_OPTIONS.maxDelayMs :=
  ⟨by norm_num [calculateDelay, DEFAULT_OPTIONS, min_def],
   (calculateDelay_bounds DEFAULT_OPTIONS 1 (1 / 2)
      (by norm_num) (by norm_num) (by norm_num [DEFAULT_OPTIONS])
      (by norm_num [DEFAULT_OPTIONS])).2.2.2.1,
   (calculateDelay_bounds DEFAULT_OPTIONS 1 (1 / 2)
      (by norm_num) (by norm_num) (by norm_num [DEFAULT_OPTIONS])
      (by norm_num [DEFAULT_OPTIONS])).2.2.2.2⟩

/-- Retry loop invariant for an eventual success: if every attempt from
`a` up to (excluding) `a + j` throws a 503-coded retryable error and
attempt `a + j` succeeds, within the attempt budget, the loop returns the
success after exactly `j + 1` further invocations. -/
theorem withRetryGo_eventual_ok {T : Type} (fn : Nat → Except CallError T)
    (opts : RetryOptions) (v : T) (msg : Nat → String)
    (hset : opts.retryableStatuses.contains 503 = true) :
    ∀ (j a fuel : Nat),
      (∀ i, a ≤ i → i < a + j → fn i = .error (.retryable (msg i) (some 503) true)) →
      fn (a + j) = .ok v → a + j < a + fuel → a + j ≤ opts.maxRetries →
      withRetryGo fn opts a fuel = (.ok v, a + j + 1) := by
  intro j
  induction j with
  | zero =>
    intro a fuel _ hok hfuel _
    cases fuel with
    | zero => exact absurd hfuel (by omega)
    | succ f =>
      unfold withRetryGo
      rw [Nat.add_zero] at hok
      rw [hok]
  | succ j ih =>
    intro a fuel hfail hok hfuel hmax
    cases fuel with
    | zero => exact absurd hfuel (by omega)
    | succ f =>
      unfold withRetryGo
      rw [hfail a (Nat.le_refl a) (by omega)]
      have ha : a < opts.maxRetries := by omega
      have hsr : shouldRetry opts a (.retryable (msg a) (some 503) true) = true := by
        have hmem : 503 ∈ opts.retryableStatuses := List.elem_iff.mp hset
        unfold shouldRetry errIsRetryable statusAllowsRetry errStatusCode
        simp [hset, ha, hmem]
      simp only [hsr, if_true]
      have := ih (a + 1) f
        (fun i h1 h2 => hfail i (by omega) (by omega))
        (by rw [show a + 1 + j = a + (j + 1) by omega]; exact hok)
        (by omega) (by omega)
      rw [this]
      congr 1
      omega

/-- C8: a function that throws a 503-coded retryable error on its first
`k` calls (`k < maxRetries`) and succeeds on call `k + 1` makes `withRetry`
return the success value after exactly `k + 1` invocations. -/
theorem withRetry_eventual_success {T : Type} (fn : Nat → Except CallError T)
    (opts : RetryOptions) (k : Nat) (v : T) (msg : Nat → String)
    (hset : opts.retryableStatuses.contains 503 = true)
    (hk : k < opts.maxRetries)
    (hfail : ∀ i, i < k → fn i = .error (.retryable (msg i) (some 503) true))
    (hok : fn k = .ok v) :
    withRetry fn opts = (.ok v, k + 1) := by
  unfold withRetry
  have h := withRetryGo_eventual_ok fn opts v msg hset k 0 (opts.maxRetries + 1)
    (fun i h1 h2 => hfail i (by omega)) (by simpa using hok) (by omega) (by omega)
  simpa using h

/-- Witness for C8: with the client options (`maxRetries = 2`), a function
failing with a retryable 503 exactly once and succeeding on the second
call returns the success after 2 invocations. -/
theorem withRetry_eventual_success_witness :
    withRetry
        (fun i => if i < 1 then
            .error (.retryable "HTTP 503: overloaded" (some 503) true)
          else .ok (7 : Nat))
        clientRetryOptions =
      (.ok 7, 2) :=
  withRetry_eventual_success
    (fun i => if i < 1 then
        .error (.retryable "HTTP 503: overloaded" (some 503) true)
      else .ok (7 : Nat))
    clientRetryOptions 1 7 (fun _ => "HTTP 503: overloaded")
    (by decide) (by decide) (by decide) (by decide)

/-- A non-retryable error (per classification) is rethrown after the very
first attempt. -/
theorem withRetryGo_const_no_retry {T : Type} (opts : RetryOptions) (e : CallError)
    (hfalse : retriesOn opts e = false) (a fuel : Nat) (hfuel : 0 < fuel) :
    withRetryGo (fun _ => (.error e : Except CallError T)) opts a fuel = (.error e, a + 1) := by
  cases fuel with
  | zero => exact absurd hfuel (by omega)
  | succ f =>
    unfold withRetryGo
    have hsr : shouldRetry opts a e = false := by
      unfold shouldRetry
      unfold retriesOn at hfalse
      rcases Bool.and_eq_false_iff.mp hfalse with h | h <;> simp [h]
    simp [hsr]

/-- A retryable-classified error that keeps recurring is retried until the
attempt budget is exhausted: `maxRetries + 1` invocations in total. -/
theorem withRetryGo_const_retry {T : Type} (opts : RetryOptions) (e : CallError)
    (htrue : retriesOn opts e = true) :
    ∀ (fuel a : Nat), a + fuel = opts.maxRetries + 1 → 0 < fuel →
      withRetryGo (fun _ => (.error e : Except CallError T)) opts a fuel =
        (.error e, opts.maxRetries + 1) := by
  intro fuel
  induction fuel with
  | zero => intro a _ h; exact absurd h (by omega)
  | succ f ih =>
    intro a hsum _
    unfold withRetryGo
    cases f with
    | zero =>
      have ha : a = opts.maxRetries := by omega
      subst ha
      have hsr : shouldRetry opts opts.maxRetries e = false := by
        unfold shouldRetry
        simp
      simp [hsr]
    | succ g =>
      have ha : a < opts.maxRetries := by omega
      have hsr : shouldRetry opts a e = true := by
        unfold shouldRetry
        unfold retriesOn at htrue
        simp [htrue, ha]
      simp only [hsr, if_true]
      exact ih (a + 1) (by omega) (by omega)

/-- `withRetry` on a constantly failing function: one invocation if the
error is classified non-retryable, `maxRetries + 1` if retryable. -/
theorem withRetry_const_fail {T : Type} (opts : RetryOptions) (e : CallError) :
    withRetry (fun _ => (.error e : Except CallError T)) opts =
      (.error e, if retriesOn opts e then opts.maxRetries + 1 else 1) := by
  cases hr : retriesOn opts e with
  | false =>
    unfold withRetry
    rw [withRetryGo_const_no_retry opts e hr 0 (opts.maxRetries + 1) (by omega)]
    simp
  | true =>
    unfold withRetry
    rw [withRetryGo_const_retry opts e hr (opts.maxRetries + 1) 0 (by omega) (by omega)]
    simp

/-- C3 (amended): the client wrapper retries `Timeout`, `NetworkError`
(plain errors), and any gateway error response whose status is in the
retryable set and not explicitly marked non-retryable.  The 401
`Unauthenticated` response (status outside the set) and the 429
`QuotaExceeded` response (marked non-retryable) are surfaced after a
single attempt; but because the gateway surfaces `InvalidRequest`,
`ModelBackendError` and `MalformedModelOutput` alike as status-500
responses, those are retried (3 attempts with the client options), not
surfaced immediately. -/
theorem client_retry_classification :
    (∀ e m rem, (callEdgeFunction (fun _ => .errorResp 401 e m rem)).2 = 1) ∧
    (∀ e m rem, (callEdgeFunction (fun _ => .errorResp 429 e m rem)).2 = 1) ∧
    (∀ e m rem, (callEdgeFunction (fun _ => .errorResp 500 e m rem)).2 = 3) ∧
    (∀ msg, withRetry (fun _ => (.error (.timeout msg) : Except CallError JVal))
        clientRetryOptions = (.error (.timeout msg), 3)) ∧
    (∀ msg, withRetry (fun _ => (.error (.plain msg) : Except CallError JVal))
        clientRetryOptions = (.error (.plain msg), 3)) := by
  refine ⟨fun e m rem => ?_, fun e m rem => ?_, fun e m rem => ?_, fun msg => ?_, fun msg => ?_⟩
  · unfold callEdgeFunction
    rw [show (fun a => classifyEdgeResponse (.errorResp 401 e m rem)) =
        (fun _ : Nat => (.error (.retryable (if e.isEmpty then "API request failed" else e)
          (some 401) true) : Except CallError JVal)) from rfl]
    rw [withRetry_const_fail]
    rfl
  · unfold callEdgeFunction
    rw [show (fun a => classifyEdgeResponse (.errorResp 429 e m rem)) =
        (fun _ : Nat => (.error (.retryable
          (match m with
           | some s => if s.isEmpty then "Daily limit reached. Upgrade to Pro for more analyses!" else s
           | none => "Daily limit reached. Upgrade to Pro for more analyses!")
          (some 429) false) : Except CallError JVal)) from rfl]
    rw [withRetry_const_fail]
    rfl
  · unfold callEdgeFunction
    rw [show (fun a => classifyEdgeResponse (.errorResp 500 e m rem)) =
        (fun _ : Nat => (.error (.retryable (if e.isEmpty then "API request failed" else e)
          (some 500) true) : Except CallError JVal)) from rfl]
    rw [withRetry_const_fail]
    rfl
  · rw [withRetry_const_fail]
    rfl
  · rw [withRetry_const_fail]
    rfl

/-- Counterexample to C3 as stated: a `MalformedModelOutput` failure
(model prose with no JSON span) reaches the client as a status-500
response, and the client wrapper then invokes the request 3 times — it is
NOT surfaced immediately after a single attempt. -/
theorem malformed_output_retried :
    (serve proseEnv proseBody).1 =
      .errorResp 500 "No JSON found in response" none none ∧
    (callEdgeFunction (fun _ => (serve proseEnv proseBody).1)).2 = 3 :=
  ⟨rfl, rfl⟩

/-- Dispatch of a well-formed `generate_strategy` request: the handler
calls the text backend and parses its response. -/
theorem dispatchRequest_generate (env : ServeEnv) (body : ClaudeRequest) (w : JVal)
    (ha : body.action = "generate_strategy") (hw : body.workout = some w)
    (htr : truthyJ (some w) = true) :
    dispatchRequest env body = (env.claudeText w body.userProfile).bind parseModelResponse := by
  unfold dispatchRequest generateStrategy
  rw [ha, hw]
  simp [htr]

/-- C4 (amended): for every model-backend text response to an admitted,
well-formed `generate_strategy` request, the gateway extracts the span
running from the first `{` to the last `}` of the text (the greedy regex
match) and returns the parsed object as `data` when that span parses as
JSON — which covers an object embedded in prose with no braces after it —
and fails with `MalformedModelOutput` (a 500 error) when there is no such
span or the span does not parse as JSON. -/
theorem model_output_extraction (env : ServeEnv) (body : ClaudeRequest) (w : JVal)
    (text : String)
    (hA : env.hasAuthHeader = true) (hT : env.tokenValid = true)
    (hAl : (checkRateLimit env.subscriptionTier env.requestCount).allowed = true)
    (ha : body.action = "generate_strategy") (hw : body.workout = some w)
    (htr : truthyJ (some w) = true)
    (hok : env.claudeText w body.userProfile = .ok text) :
    (∀ span v, extractJsonSpan text = some span → jsonParse span = some v →
      (serve env body).1 = .success v
        ((checkRateLimit env.subscriptionTier env.requestCount).remaining - 1)) ∧
    (extractJsonSpan text = none →
      (serve env body).1 = .errorResp 500 "No JSON found in response" none none) ∧
    (∀ span, extractJsonSpan text = some span → jsonParse span = none →
      (serve env body).1 = .errorResp 500 jsonSyntaxError none none) := by
  have hd : dispatchRequest env body = parseModelResponse text := by
    rw [dispatchRequest_generate env body w ha hw htr, hok]
    rfl
  refine ⟨fun span v hspan hv => ?_, fun hnone => ?_, fun span hspan hv => ?_⟩
  · have h1 : parseModelResponse text = .ok v := by
      unfold parseModelResponse
      rw [hspan]
      simp [hv]
    unfold serve
    simp [hA, hT, hAl, hd, h1]
  · have h1 : parseModelResponse text = .error "No JSON found in response" := by
      unfold parseModelResponse
      rw [hnone]
    unfold serve
    simp [hA, hT, hAl, hd, h1]
  · have h1 : parseModelResponse text = .error jsonSyntaxError := by
      unfold parseModelResponse
      rw [hspan]
      simp [hv]
    unfold serve
    simp [hA, hT, hAl, hd, h1]

/-- Witness for C4 (amended), the end-to-end scenario: the model answers
with prose embedding one JSON object and no later braces; the gateway
extracts it and returns it as `data` with `remaining = 4`. -/
theorem model_output_extraction_witness :
    (serve strategyEnv strategyBody).1 = .success (.jobj [("pacing", .jstr "steady")]) 4 :=
  (model_output_extraction strategyEnv strategyBody (.jobj [("workoutType", .jstr "AMRAP")])
      strategyProse rfl rfl rfl rfl rfl rfl rfl).1
    "\x7b\"pacing\":\"steady\"\x7d" (.jobj [("pacing", .jstr "steady")]) rfl rfl

/-- Counterexample to C4 as stated: the model text
`pre {"a":1} mid {"b":2}` has `{"a":1}` as its first top-level span, which
parses fine — but the gateway, whose greedy regex runs to the LAST `}`,
fails the request with `MalformedModelOutput` instead of returning that
object. -/
theorem first_span_not_extracted :
    firstTopLevelJsonSpan twoObjProse = some "\x7b\"a\":1\x7d" ∧
    jsonParse "\x7b\"a\":1\x7d" = some (.jobj [("a", .jnum 1)]) ∧
    extractJsonSpan twoObjProse = some "\x7b\"a\":1\x7d mid \x7b\"b\":2\x7d" ∧
    (serve twoObjEnv strategyBody).1 = .errorResp 500 jsonSyntaxError none none :=
  ⟨rfl, rfl, rfl, rfl⟩

/-- C5 (amended): for every authenticated, admitted request the gateway
validates, before calling the model backend, that `imageBase64` is
present for `parse_wod` and `workout` for `generate_strategy` — but not
`mimeType`, which is optional and defaulted — and fails with an
InvalidRequest error (surfaced as a 500 response carrying the message)
when a required field is missing or the action is unrecognized, leaving
the counter unchanged. -/
theorem required_field_validation (env : ServeEnv) (body : ClaudeRequest)
    (hA : env.hasAuthHeader = true) (hT : env.tokenValid = true)
    (hAl : (checkRateLimit env.subscriptionTier env.requestCount).allowed = true) :
    (body.action = "parse_wod" → truthyS body.imageBase64 = false →
      serve env body =
        (.errorResp 500 "Missing imageBase64" none none, env.requestCount.getD 0)) ∧
    (body.action = "generate_strategy" → truthyJ body.workout = false →
      serve env body =
        (.errorResp 500 "Missing workout data" none none, env.requestCount.getD 0)) ∧
    (body.action ≠ "parse_wod" → body.action ≠ "generate_strategy" →
      serve env body =
        (.errorResp 500 "Invalid action" none none, env.requestCount.getD 0)) := by
  refine ⟨fun ha hi => ?_, fun ha hw => ?_, fun h1 h2 => ?_⟩
  · have hd : dispatchRequest env body = .error "Missing imageBase64" := by
      unfold dispatchRequest
      rw [ha]
      simp [hi]
    unfold serve
    simp [hA, hT, hAl, hd]
  · have hd : dispatchRequest env body = .error "Missing workout data" := by
      unfold dispatchRequest
      rw [ha]
      simp [hw]
    unfold serve
    simp [hA, hT, hAl, hd]
  · have hd : dispatchRequest env body = .error "Invalid action" := by
      unfold dispatchRequest
      simp [h1, h2]
    unfold serve
    simp [hA, hT, hAl, hd]

/-- Witness for C5 (amended): a `parse_wod` request without `imageBase64`
fails with the Missing imageBase64 error and the counter stays 0. -/
theorem required_field_validation_witness :
    serve proseEnv { action := "parse_wod" } =
      (.errorResp 500 "Missing imageBase64" none none, 0) :=
  (required_field_validation proseEnv { action := "parse_wod" } rfl rfl rfl).1 rfl rfl

/-- Counterexample to C5 as stated: a `parse_wod` request carrying image
bytes but NO `mimeType` — a field the claim lists as required — is not
rejected with InvalidRequest; it succeeds. -/
theorem mime_missing_not_rejected :
    mimelessBody.mimeType = none ∧
    (serve emptyObjEnv mimelessBody).1 = .success (.jobj []) 4 :=
  ⟨rfl, rfl⟩

/-- C10: a `parse_wod` request that passes authentication and admission
and carries `imageBase64` but no `mimeType` is not rejected: the gateway
behaves exactly as if `mimeType` were `"image/png"`, the vision backend is
called with that mime type, and the client-side `parseWodImage` applies
the same `'image/png'` default parameter. -/
theorem mime_type_defaulted (env : ServeEnv) (body : ClaudeRequest) (img : String)
    (hA : env.hasAuthHeader = true) (hT : env.tokenValid = true)
    (hAl : (checkRateLimit env.subscriptionTier env.requestCount).allowed = true)
    (ha : body.action = "parse_wod") (himg : body.imageBase64 = some img)
    (hne : img.isEmpty = false) (hm : body.mimeType = none) :
    serve env body = serve env { body with mimeType := some "image/png" } ∧
    dispatchRequest env body = (env.claudeVision "image/png" img).bind parseModelResponse ∧
    clientParseWodMime none = "image/png" := by
  have htr : truthyS body.imageBase64 = true := by
    rw [himg]
    simp [truthyS, hne]
  have hd : dispatchRequest env body =
      (env.claudeVision "image/png" img).bind parseModelResponse := by
    unfold dispatchRequest parseWodImage
    rw [ha, hm, himg]
    simp [htr, effectiveMimeType, himg ▸ htr]
  have hd2 : dispatchRequest env { body with mimeType := some "image/png" } =
      (env.claudeVision "image/png" img).bind parseModelResponse := by
    unfold dispatchRequest parseWodImage
    show (if body.action = "parse_wod" then _ else _) = _
    rw [ha, himg]
    simp [truthyS, hne, effectiveMimeType]
  refine ⟨?_, hd, rfl⟩
  unfold serve
  simp [hA, hT, hAl, hd, hd2]

/-- Witness for C10: with a backend accepting only `"image/png"`, a
mimeType-less request behaves as the explicit `"image/png"` request and
succeeds. -/
theorem mime_type_defaulted_witness :
    serve pngEnv mimelessBody =
      serve pngEnv { mimelessBody with mimeType := some "image/png" } ∧
    (serve pngEnv mimelessBody).1 = .success (.jobj []) 4 :=
  ⟨(mime_type_defaulted pngEnv mimelessBody "aW1hZ2U=" rfl rfl rfl rfl rfl rfl rfl).1, rfl⟩
